import Mathlib

/-!
Shallow embedding of `src/etl.py`, a batch ETL pipeline that turns a song
catalog and a stream of listening-log events into star-schema tables
(songs, artists, users, time, songplays) written to partitioned columnar
storage.

Modelling conventions:
* A Spark DataFrame is a `List` of record structures; `filter`, projection,
  `join`, `drop_duplicates` become the corresponding list operations.
* JSON numbers that are floats in the source (`duration`, latitude,
  longitude) are carried as exact `Rat` values; the pipeline never computes
  with them, it only moves them around.
* `datetime` values are represented by their epoch-second count
  (`PyDatetime`); calendar decomposition (`year`, `month`, `hour`, ...) is
  computed from epoch seconds with the proleptic Gregorian calendar, with
  the session timezone taken to be UTC.
* `monotonically_increasing_id()` is modelled as the row index within the
  run, which satisfies its contract (unique, increasing within a run).
* Python name-resolution failures present in the source (`os.parth`,
  `users_tables`, `F`, `get_datetime`) are modelled by `Except PyError`
  in the stage-execution functions `process_song_data` / `process_log_data`;
  the per-table dataflow functions model what each DataFrame expression
  denotes.
-/

/-- Errors a Python expression can raise while the script runs. -/
inductive PyError where
  | attributeError (obj attr : String)
  | nameError (nm : String)
deriving DecidableEq, Repr

/-- A `datetime.datetime` value, identified by its epoch-second count
(`datetime.fromtimestamp` is applied to whole seconds only in this code). -/
structure PyDatetime where
  epochSeconds : Nat
deriving DecidableEq, Repr

/-- `datetime.fromtimestamp(s)` for a whole-second epoch `s`. -/
def PyDatetime.fromtimestamp (s : Nat) : PyDatetime := ⟨s⟩

/-- One JSON object of the `song_data` dataset (spec §6 input schema). -/
structure SongRecord where
  song_id : String
  title : String
  artist_id : String
  year : Int
  duration : Rat
  artist_name : String
  artist_location : String
  artist_latitude : Option Rat
  artist_longitude : Option Rat
  num_songs : Int
deriving DecidableEq, Repr

/-- One JSON object of the `log_data` dataset (spec §6 input schema). -/
structure LogRecord where
  ts : Nat
  page : String
  userId : String
  firstName : String
  lastName : String
  gender : String
  level : String
  song : String
  artist : String
  sessionId : Nat
  location : String
  userAgent : String
deriving DecidableEq, Repr

/-- `df['song_id', 'title', 'artist_id', 'year', 'duration']` (etl.py:35),
also the schema read back from the songs store at etl.py:96. -/
structure SongsRow where
  song_id : String
  title : String
  artist_id : String
  year : Int
  duration : Rat
deriving DecidableEq, Repr

/-- `df['artist_id', 'artist_name', 'artist_location', 'artist_latitude',
'artist_longitude']` (etl.py:42). -/
structure ArtistsRow where
  artist_id : String
  artist_name : String
  artist_location : String
  artist_latitude : Option Rat
  artist_longitude : Option Rat
deriving DecidableEq, Repr

/-- `df['userId', 'firstName', 'lastName', 'gender', 'level']` (etl.py:70). -/
structure UsersRow where
  userId : String
  firstName : String
  lastName : String
  gender : String
  level : String
deriving DecidableEq, Repr

/-- `drop_duplicates(subset=[k])`: keep the first row seen for each key
value, drop later rows with an already-seen key (etl.py:43,71,90). -/
def dedupBy {α β : Type} [DecidableEq β] (key : α → β) : List α → List α
  | [] => []
  | x :: xs => x :: dedupBy key (xs.filter (fun y => decide (key y ≠ key x)))
termination_by l => l.length
decreasing_by
  simp only [List.length_cons]
  exact Nat.lt_succ_of_le (List.length_filter_le _ _)

/-- Projection of a catalog record onto the songs table row (etl.py:35). -/
def songProj (r : SongRecord) : SongsRow :=
  ⟨r.song_id, r.title, r.artist_id, r.year, r.duration⟩

/-- `songs_table` as extracted at etl.py:35 (no dedup). -/
def songs_table (df : List SongRecord) : List SongsRow := df.map songProj

/-- Projection of a catalog record onto the artists table row (etl.py:42). -/
def artistProj (r : SongRecord) : ArtistsRow :=
  ⟨r.artist_id, r.artist_name, r.artist_location, r.artist_latitude, r.artist_longitude⟩

/-- `artists_table` after the projection at etl.py:42 and
`drop_duplicates(subset=['artist_id'])` at etl.py:43. -/
def artists_table (df : List SongRecord) : List ArtistsRow :=
  dedupBy (fun a => a.artist_id) (df.map artistProj)

/-- `df.filter(df.page == 'NextSong')` (etl.py:67). -/
def filterNextSong (df : List LogRecord) : List LogRecord :=
  df.filter (fun r => r.page == "NextSong")

/-- Projection of a log record onto the users table row (etl.py:70). -/
def userProj (r : LogRecord) : UsersRow :=
  ⟨r.userId, r.firstName, r.lastName, r.gender, r.level⟩

/-- `users_table`: filter (etl.py:67), projection (etl.py:70), then
`drop_duplicates(subset='userId')` (etl.py:71). -/
def users_table (logs : List LogRecord) : List UsersRow :=
  dedupBy (fun u => u.userId) ((filterNextSong logs).map userProj)

/-- The udf of etl.py:77: `lambda ts: datetime.fromtimestamp(ts // 1000)`,
integer-dividing the epoch-millisecond timestamp by 1000 before conversion. -/
def get_timestamp (ts : Nat) : PyDatetime := PyDatetime.fromtimestamp (ts / 1000)

/-- Proleptic Gregorian civil date `(year, month, day)` of an epoch-day
count (days since 1970-01-01, UTC). -/
def civilFromDays (days : Nat) : Nat × Nat × Nat :=
  let z := days + 719468
  let era := z / 146097
  let doe := z % 146097
  let yoe := (doe - doe / 1460 + doe / 36524 - doe / 146096) / 365
  let y := yoe + era * 400
  let doy := doe - (365 * yoe + yoe / 4 - yoe / 100)
  let mp := (5 * doy + 2) / 153
  let d := doy - (153 * mp + 2) / 5 + 1
  let m := if mp < 10 then mp + 3 else mp - 9
  (if m ≤ 2 then y + 1 else y, m, d)

/-- `F.year(dt)`: calendar year of the datetime (session timezone UTC). -/
def yearOf (dt : PyDatetime) : Nat := (civilFromDays (dt.epochSeconds / 86400)).1

/-- `F.month(dt)`: calendar month of the datetime. -/
def monthOf (dt : PyDatetime) : Nat := (civilFromDays (dt.epochSeconds / 86400)).2.1

/-- `F.dayofmonth(dt)`: day of the month of the datetime. -/
def dayOf (dt : PyDatetime) : Nat := (civilFromDays (dt.epochSeconds / 86400)).2.2

/-- `F.hour(dt)`: hour of day of the datetime. -/
def hourOf (dt : PyDatetime) : Nat := dt.epochSeconds % 86400 / 3600

/-- ISO day of week, 1 = Monday .. 7 = Sunday (1970-01-01 was a Thursday). -/
def isoDayOfWeek (dt : PyDatetime) : Nat := (dt.epochSeconds / 86400 + 3) % 7 + 1

/-- `F.date_format(dt, 'u')`: ISO day-of-week number as a string. -/
def dateFormatU (dt : PyDatetime) : String := toString (isoDayOfWeek dt)

/-- Gregorian leap-year test. -/
def isLeap (y : Nat) : Bool := y % 4 == 0 && (y % 100 != 0 || y % 400 == 0)

/-- Days in the year strictly before month `m` (1-based), non-leap. -/
def monthPrefix : List Nat := [0, 31, 59, 90, 120, 151, 181, 212, 243, 273, 304, 334]

/-- 1-based ordinal day of the year of a civil date. -/
def dayOfYear (y m d : Nat) : Nat :=
  monthPrefix.getD (m - 1) 0 + (if 2 < m && isLeap y then 1 else 0) + d

/-- Number of ISO weeks (52 or 53) in ISO year `y`. -/
def weeksInISOYear (y : Nat) : Nat :=
  let p := fun (n : Nat) => (n + n / 4 - n / 100 + n / 400) % 7
  if p y == 4 || p (y - 1) == 3 then 53 else 52

/-- `F.weekofyear(dt)`: ISO-8601 week number of the datetime. -/
def weekofyear (dt : PyDatetime) : Nat :=
  let days := dt.epochSeconds / 86400
  let c := civilFromDays days
  let wd := (days + 3) % 7 + 1
  let doy := dayOfYear c.1 c.2.1 c.2.2
  let w := (10 + doy - wd) / 7
  if w = 0 then weeksInISOYear (c.1 - 1)
  else if weeksInISOYear c.1 < w then 1
  else w

/-- One row of the `time_table` select (etl.py:81-89), fields in the order
of the select list. `weekVal` is the value produced by `F.weekofyear`
(aliased `'year'` in the source, etl.py:85) and `yearVal` the value
produced by `F.year` (also aliased `'year'`, etl.py:87). -/
structure TimeRow where
  start_time : PyDatetime
  hour : Nat
  day : Nat
  weekVal : Nat
  month : Nat
  yearVal : Nat
  weekday : String
deriving DecidableEq, Repr

/-- The time-table row derived from one datetime (etl.py:81-89). -/
def timeProj (dt : PyDatetime) : TimeRow :=
  ⟨dt, hourOf dt, dayOf dt, weekofyear dt, monthOf dt, yearOf dt, dateFormatU dt⟩

/-- `time_table`: filter (etl.py:67), datetime derivation (etl.py:77-78),
select (etl.py:81-89), `drop_duplicates(subset=['start_time'])` (etl.py:90). -/
def time_table (logs : List LogRecord) : List TimeRow :=
  dedupBy (fun t => t.start_time)
    ((filterNextSong logs).map (fun r => timeProj (get_timestamp r.ts)))

/-- The Spark expressions appearing in the time-table select (etl.py:81-89). -/
inductive TimeCol where
  | colDatetime
  | hourC
  | dayofmonthC
  | weekofyearC
  | monthC
  | yearC
  | dateFormatUC
deriving DecidableEq, Repr

/-- The time-table select list, as (output column alias, expression) pairs,
transcribed from etl.py:81-89 in order. -/
def time_table_select : List (String × TimeCol) :=
  [("start_time", TimeCol.colDatetime),
   ("hour", TimeCol.hourC),
   ("day", TimeCol.dayofmonthC),
   ("year", TimeCol.weekofyearC),
   ("month", TimeCol.monthC),
   ("year", TimeCol.yearC),
   ("weekday", TimeCol.dateFormatUC)]

/-- The output column names of the time-table select. -/
def time_table_aliases : List String := time_table_select.map Prod.fst

/-- One row of the `songplays_table` select (etl.py:103-115). `song_id` and
`artist_id` are nullable foreign keys in the star schema. -/
structure SongplayRow where
  songplay_id : Nat
  start_time : PyDatetime
  year : Nat
  month : Nat
  user_id : String
  level : String
  song_id : Option String
  artist_id : Option String
  session_id : Nat
  location : String
  user_agent : String
deriving DecidableEq, Repr

/-- The songplays select (etl.py:103-115) applied to one joined (log event,
catalog song) pair; `i` models `monotonically_increasing_id()`. -/
def songplayProj (i : Nat) (e : LogRecord) (s : SongsRow) : SongplayRow :=
  let dt := get_timestamp e.ts
  ⟨i, dt, yearOf dt, monthOf dt, e.userId, e.level, some s.song_id,
    some s.artist_id, e.sessionId, e.location, e.userAgent⟩

/-- `df.join(song_df, df.song == song_df.title)` (etl.py:101): a plain
(inner) join, pairing each log event with every catalog song whose `title`
equals the event's `song` field. -/
def joinPairs (df : List LogRecord) (song_df : List SongsRow) :
    List (LogRecord × SongsRow) :=
  df.flatMap (fun e => (song_df.filter (fun s => s.title == e.song)).map (fun s => (e, s)))

/-- Assign consecutive surrogate keys starting at `i` and apply the
songplays select to each joined pair. -/
def numberRows (i : Nat) : List (LogRecord × SongsRow) → List SongplayRow
  | [] => []
  | p :: ps => songplayProj i p.1 p.2 :: numberRows (i + 1) ps

/-- `songplays_table`: filter (etl.py:67), join against the songs read back
from storage (etl.py:96-101), select with surrogate key (etl.py:103-115). -/
def songplays_table (logs : List LogRecord) (song_df : List SongsRow) :
    List SongplayRow :=
  numberRows 0 (joinPairs (filterNextSong logs) song_df)

/-- Partition columns of the songs write (etl.py:38-39): the write
partitions by `['_year', '_artist_id']`, the two columns added by
`withColumn('_year', df.year)` and `withColumn('_artist_id', df.artist_id)`
as copies of `year` and `artist_id`. -/
def songs_partition_cols : List String := ["_year", "_artist_id"]

/-- Partition columns of the artists write (etl.py:46): none, the table is
written unpartitioned. -/
def artists_partition_cols : List String := []

/-- Directory path of one partition: `col=value` segments joined by `/`. -/
def partitionDir (cols vals : List String) : String :=
  String.intercalate "/" ((cols.zip vals).map (fun cv => cv.1 ++ "=" ++ cv.2))

/-- The partition-key values of a songs row under the write at etl.py:38-39:
the `_year` column holds the row's `year` and the `_artist_id` column holds
the row's `artist_id`. -/
def songsPartitionKey (r : SongsRow) : Int × String := (r.year, r.artist_id)

/-- The directory segment a songs row lands in under the write at
etl.py:38-39. -/
def songsPartitionDir (r : SongsRow) : String :=
  partitionDir songs_partition_cols [toString r.year, r.artist_id]

/-- Execution model of `process_song_data` (etl.py:19-46). The read
(etl.py:32) and the songs projection (etl.py:35) evaluate, then building the
songs output path at etl.py:39 evaluates `os.parth.join(...)`: the module
`os` has no attribute `parth`, so an AttributeError is raised before the
songs write and before the artists extraction and write (etl.py:42-46) run. -/
def process_song_data (catalog : List SongRecord) : Except PyError Unit :=
  let df := catalog
  let _songs_table := songs_table df
  Except.error (PyError.attributeError "os" "parth")

/-- Execution model of `process_log_data` (etl.py:49-118). The read
(etl.py:64), the filter (etl.py:67) and the users projection and dedup
(etl.py:70-71) evaluate, then the write statement at etl.py:74 references
the undefined name `users_tables` (the table was bound as `users_table`),
so a NameError is raised before the users write and before every later step
(time table, songplays) runs. Lines 77-78 would likewise fail: `F`,
`DateType` and `get_datetime` are never defined. -/
def process_log_data (logs : List LogRecord) : Except PyError Unit :=
  let df := filterNextSong logs
  let _users_table := dedupBy (fun u => u.userId) (df.map userProj)
  Except.error (PyError.nameError "users_tables")

/-- The value of one output table in the columnar store. -/
inductive Table where
  | songsT : List SongsRow → Table
  | artistsT : List ArtistsRow → Table
  | usersT : List UsersRow → Table
  | timeT : List TimeRow → Table
  | songplaysT : List SongplayRow → Table
deriving DecidableEq

/-- The columnar store: a map from destination path to table contents. -/
def Store : Type := String → Option Table

/-- `DataFrame.write....parquet(path, 'overwrite')`: every write in the
pipeline (etl.py:39,46,74,93,118) passes mode `'overwrite'`, so a write
fully replaces whatever was previously stored at the destination and never
appends to it. -/
def writeParquet (store : Store) (path : String) (t : Table) : Store :=
  fun q => if q = path then some t else store q

/-- `spark.read.parquet` of the songs destination (etl.py:96): the rows
written there, or no rows if nothing was written. -/
def readSongs (store : Store) : List SongsRow :=
  match store "songs" with
  | some (Table.songsT l) => l
  | _ => []

/-- The dataflow of one full pipeline run (`main`, etl.py:140-141):
`process_song_data` writes songs and artists, then `process_log_data`
writes users and time, reads the songs back from the store (etl.py:96),
and writes songplays; every write uses overwrite mode. -/
def run_pipeline (catalog : List SongRecord) (logs : List LogRecord)
    (store : Store) : Store :=
  let s1 := writeParquet store "songs" (Table.songsT (songs_table catalog))
  let s2 := writeParquet s1 "artists" (Table.artistsT (artists_table catalog))
  let s3 := writeParquet s2 "users" (Table.usersT (users_table logs))
  let s4 := writeParquet s3 "time" (Table.timeT (time_table logs))
  let song_df := readSongs s4
  writeParquet s4 "songplays" (Table.songplaysT (songplays_table logs song_df))

/-- The log event of the worked example in the spec (§8). Fields the
example leaves unspecified are empty strings. -/
def exampleLog : LogRecord :=
  { ts := 1541990258796, page := "NextSong", userId := "8", firstName := "",
    lastName := "", gender := "", level := "free", song := "Setanta matins",
    artist := "Elena", sessionId := 139, location := "", userAgent := "" }

/-- The catalog song of the worked example in the spec (§8), as a songs-table
row (the shape the fact join consumes). -/
def exampleSong : SongsRow :=
  { song_id := "SOZCTXZ12AB0182364", title := "Setanta matins",
    artist_id := "AR5KOSW1187FB35FF4", year := 0, duration := 26958 / 100 }

/-- A full catalog record carrying the worked example's song. -/
def exampleSongRecord : SongRecord :=
  { song_id := "SOZCTXZ12AB0182364", title := "Setanta matins",
    artist_id := "AR5KOSW1187FB35FF4", year := 0, duration := 26958 / 100,
    artist_name := "Elena", artist_location := "Dubai UAE",
    artist_latitude := none, artist_longitude := none, num_songs := 1 }

/-- Replace a log event's free-text `artist` field (used to state that the
fact join never consults it). -/
def setArtist (a : String) (e : LogRecord) : LogRecord := { e with artist := a }

/-- A second catalog song sharing the worked example's title but with a
different `song_id` and a different artist. -/
def exampleSong2 : SongsRow :=
  { song_id := "SOOTHER12AB0100000", title := "Setanta matins",
    artist_id := "AROTHER1187B900000", year := 1999, duration := 100 }

/-! ## Helper lemmas about `drop_duplicates` -/

theorem mem_of_mem_dedupBy {α β : Type} [DecidableEq β] (key : α → β) :
    ∀ (l : List α) (x : α), x ∈ dedupBy key l → x ∈ l := by
  intro l
  induction l using dedupBy.induct key with
  | case1 => intro x hx; simp [dedupBy] at hx
  | case2 a as ih =>
    intro x hx
    rw [dedupBy] at hx
    rcases List.mem_cons.mp hx with h | h
    · exact h ▸ List.mem_cons_self _ _
    · exact List.mem_cons_of_mem _ (List.mem_of_mem_filter (ih x h))

theorem key_ne_of_mem_dedupBy_filter {α β : Type} [DecidableEq β] (key : α → β)
    (a : α) (as : List α) :
    ∀ x ∈ dedupBy key (as.filter (fun y => decide (key y ≠ key a))), key x ≠ key a := by
  intro x hx
  have hmem := mem_of_mem_dedupBy key _ x hx
  exact of_decide_eq_true (List.mem_filter.mp hmem).2

theorem countP_dedupBy_le_one {α β : Type} [DecidableEq β] (key : α → β) (k : β) :
    ∀ l : List α, (dedupBy key l).countP (fun x => key x == k) ≤ 1 := by
  intro l
  induction l using dedupBy.induct key with
  | case1 => simp [dedupBy]
  | case2 a as ih =>
    rw [dedupBy, List.countP_cons]
    by_cases hk : key a = k
    · have hz : (dedupBy key (as.filter (fun y => decide (key y ≠ key a)))).countP
          (fun x => key x == k) = 0 :=
        List.countP_eq_zero.mpr (fun x hx => by
          simp only [beq_iff_eq]
          exact fun he => key_ne_of_mem_dedupBy_filter key a as x hx (he.trans hk.symm))
      rw [hz]
      split <;> simp
    · have hf : (key a == k) = false := by simp [hk]
      rw [hf]
      simpa using ih

theorem countP_dedupBy_eq_one {α β : Type} [DecidableEq β] (key : α → β) (k : β) :
    ∀ l : List α, (∃ r ∈ l, key r = k) →
      (dedupBy key l).countP (fun x => key x == k) = 1 := by
  intro l
  induction l using dedupBy.induct key with
  | case1 => rintro ⟨r, hr, -⟩; simp at hr
  | case2 a as ih =>
    rintro ⟨r, hr, hk⟩
    rw [dedupBy, List.countP_cons]
    by_cases ha : key a = k
    · have hz : (dedupBy key (as.filter (fun y => decide (key y ≠ key a)))).countP
          (fun x => key x == k) = 0 :=
        List.countP_eq_zero.mpr (fun x hx => by
          simp only [beq_iff_eq]
          exact fun he => key_ne_of_mem_dedupBy_filter key a as x hx (he.trans ha.symm))
      have ht : (key a == k) = true := by simp [ha]
      rw [hz, ht]
      simp
    · have hra : r ≠ a := fun h => ha (h ▸ hk)
      have hras : r ∈ as := (List.mem_cons.mp hr).resolve_left hra
      have hrf : r ∈ as.filter (fun y => decide (key y ≠ key a)) :=
        List.mem_filter.mpr ⟨hras, decide_eq_true (fun h => ha (h ▸ hk))⟩
      have hone := ih ⟨r, hrf, hk⟩
      have hf : (key a == k) = false := by simp [ha]
      rw [hone, hf]
      simp

/-- C5: after the pipeline's dedup steps, the dimension tables contain no
duplicate natural keys: the artists table has at most one row per
`artist_id` and exactly one for every `artist_id` present in the catalog;
the users table has at most one row per `userId` and exactly one for every
`userId` among the post-filter log events; the time table has at most one
row per `start_time` and exactly one for every derived `start_time`. -/
theorem dimension_natural_keys_unique (catalog : List SongRecord) (logs : List LogRecord) :
    (∀ aid : String,
      (artists_table catalog).countP (fun a => a.artist_id == aid) ≤ 1
      ∧ ((∃ r ∈ catalog, r.artist_id = aid) →
        (artists_table catalog).countP (fun a => a.artist_id == aid) = 1))
    ∧ (∀ uid : String,
      (users_table logs).countP (fun u => u.userId == uid) ≤ 1
      ∧ ((∃ e ∈ filterNextSong logs, e.userId = uid) →
        (users_table logs).countP (fun u => u.userId == uid) = 1))
    ∧ (∀ st : PyDatetime,
      (time_table logs).countP (fun t => t.start_time == st) ≤ 1
      ∧ ((∃ e ∈ filterNextSong logs, get_timestamp e.ts = st) →
        (time_table logs).countP (fun t => t.start_time == st) = 1)) := by
  refine ⟨fun aid => ⟨?_, fun ⟨r, hr, hid⟩ => ?_⟩,
          fun uid => ⟨?_, fun ⟨e, he, hid⟩ => ?_⟩,
          fun st => ⟨?_, fun ⟨e, he, hst⟩ => ?_⟩⟩
  · exact countP_dedupBy_le_one (fun a : ArtistsRow => a.artist_id) aid _
  · exact countP_dedupBy_eq_one (fun a : ArtistsRow => a.artist_id) aid _
      ⟨artistProj r, List.mem_map_of_mem artistProj hr, hid⟩
  · exact countP_dedupBy_le_one (fun u : UsersRow => u.userId) uid _
  · exact countP_dedupBy_eq_one (fun u : UsersRow => u.userId) uid _
      ⟨userProj e, List.mem_map_of_mem userProj he, hid⟩
  · exact countP_dedupBy_le_one (fun t : TimeRow => t.start_time) st _
  · exact countP_dedupBy_eq_one (fun t : TimeRow => t.start_time) st _
      ⟨timeProj (get_timestamp e.ts),
       List.mem_map_of_mem (fun r => timeProj (get_timestamp r.ts)) he,
       by rw [← hst]; rfl⟩

/-- C5 witness: the uniqueness counts evaluated on the worked example's
concrete catalog record and log event. -/
theorem dimension_natural_keys_unique_witness :
    (artists_table [exampleSongRecord]).countP
      (fun a => a.artist_id == "AR5KOSW1187FB35FF4") = 1
    ∧ (users_table [exampleLog]).countP (fun u => u.userId == "8") = 1
    ∧ (time_table [exampleLog]).countP
      (fun t => t.start_time == PyDatetime.fromtimestamp 1541990258) = 1 := by
  have h := dimension_natural_keys_unique [exampleSongRecord] [exampleLog]
  have hmem : exampleLog ∈ filterNextSong [exampleLog] :=
    List.mem_filter.mpr ⟨List.mem_singleton.mpr rfl, rfl⟩
  exact ⟨(h.1 "AR5KOSW1187FB35FF4").2 ⟨exampleSongRecord, List.mem_singleton.mpr rfl, rfl⟩,
         (h.2.1 "8").2 ⟨exampleLog, hmem, rfl⟩,
         (h.2.2 (PyDatetime.fromtimestamp 1541990258)).2 ⟨exampleLog, hmem, rfl⟩⟩

/-- C6: the derived datetime is obtained by integer-dividing the
epoch-millisecond timestamp by 1000 before conversion, so fractional
milliseconds are truncated: any two timestamps with the same integer
quotient by 1000 yield the same `start_time`. -/
theorem get_timestamp_truncates_millis :
    (∀ ts : Nat, get_timestamp ts = PyDatetime.fromtimestamp (ts / 1000))
    ∧ (∀ t1 t2 : Nat, t1 / 1000 = t2 / 1000 → get_timestamp t1 = get_timestamp t2)
    ∧ (∀ ts : Nat, get_timestamp ts = get_timestamp (1000 * (ts / 1000))) := by
  refine ⟨fun ts => rfl, fun t1 t2 h => ?_, fun ts => ?_⟩
  · simp only [get_timestamp, h]
  · simp only [get_timestamp, PyDatetime.fromtimestamp, Nat.mul_div_cancel_left _ (by norm_num : (0:Nat) < 1000)]

/-- C6 witness: two concrete timestamps 795 ms apart within the same
second yield the same datetime, the worked example's 1541990258 s. -/
theorem get_timestamp_truncates_millis_witness :
    get_timestamp 1541990258796 = get_timestamp 1541990258001
    ∧ get_timestamp 1541990258796 = PyDatetime.fromtimestamp 1541990258 := by
  exact ⟨get_timestamp_truncates_millis.2.1 1541990258796 1541990258001 (by decide), rfl⟩

/-- C3: the time-table select does NOT produce the claimed column list
`start_time, hour, day, week_of_year, month, year, weekday`: the
`weekofyear` expression is aliased `'year'` (etl.py:85), so the select
yields two columns named `year` and none named `week_of_year`. -/
theorem time_table_week_column_misnamed :
    time_table_aliases ≠ ["start_time", "hour", "day", "week_of_year", "month", "year", "weekday"]
    ∧ ("year", TimeCol.weekofyearC) ∈ time_table_select
    ∧ time_table_aliases.count "year" = 2
    ∧ "week_of_year" ∉ time_table_aliases := by decide

/-- C2: neither stage runs to completion on any input. `process_song_data`
raises AttributeError at etl.py:39 (`os.parth`) before writing the songs or
artists tables, and `process_log_data` raises NameError at etl.py:74
(`users_tables`) before writing the users, time or songplays tables. -/
theorem stages_raise_name_errors (catalog : List SongRecord) (logs : List LogRecord) :
    process_song_data catalog = Except.error (PyError.attributeError "os" "parth")
    ∧ process_log_data logs = Except.error (PyError.nameError "users_tables") :=
  ⟨rfl, rfl⟩

/-- C9: the worked example's single log event joined against the
single-song catalog produces exactly one songplay row, with
`song_id = "SOZCTXZ12AB0182364"`, `user_id = "8"`, `level = "free"`,
`session_id = 139` and `start_time` derived from 1541990258 seconds. -/
theorem example_event_one_songplay :
    (songplays_table [exampleLog] [exampleSong]).map
      (fun r => (r.song_id, r.user_id, r.level, r.session_id, r.start_time)) =
    [(some "SOZCTXZ12AB0182364", "8", "free", 139, PyDatetime.fromtimestamp 1541990258)] := by
  decide

/-! ## Helper lemmas about the fact join -/

theorem length_numberRows (i : Nat) (l : List (LogRecord × SongsRow)) :
    (numberRows i l).length = l.length := by
  induction l generalizing i with
  | nil => rfl
  | cons p ps ih => simp [numberRows, ih]

theorem mem_numberRows {r : SongplayRow} {i : Nat} {l : List (LogRecord × SongsRow)} :
    r ∈ numberRows i l → ∃ j p, p ∈ l ∧ r = songplayProj j p.1 p.2 := by
  induction l generalizing i with
  | nil => intro h; simp [numberRows] at h
  | cons p ps ih =>
    intro h
    rw [numberRows] at h
    rcases List.mem_cons.mp h with h | h
    · exact ⟨i, p, List.mem_cons_self _ _, h⟩
    · obtain ⟨j, q, hq, hr⟩ := ih h
      exact ⟨j, q, List.mem_cons_of_mem _ hq, hr⟩

theorem length_joinPairs (df : List LogRecord) (sdf : List SongsRow) :
    (joinPairs df sdf).length
      = (df.map (fun e => (sdf.filter (fun s => s.title == e.song)).length)).sum := by
  rw [joinPairs, List.length_flatMap]
  congr 1
  apply List.map_congr_left
  intro e _
  simp [List.length_map]

theorem mem_joinPairs {p : LogRecord × SongsRow} {df : List LogRecord}
    {sdf : List SongsRow} :
    p ∈ joinPairs df sdf ↔ p.1 ∈ df ∧ p.2 ∈ sdf ∧ p.2.title = p.1.song := by
  rw [joinPairs, List.mem_flatMap]
  constructor
  · rintro ⟨e, he, hp⟩
    obtain ⟨s, hs, hes⟩ := List.mem_map.mp hp
    obtain ⟨hs1, hs2⟩ := List.mem_filter.mp hs
    cases hes
    exact ⟨he, hs1, by simpa using hs2⟩
  · rintro ⟨h1, h2, h3⟩
    exact ⟨p.1, h1, List.mem_map.mpr
      ⟨p.2, List.mem_filter.mpr ⟨h2, by simpa using h3⟩, rfl⟩⟩

/-- C1 counterexample: the worked example's log event passes the filter
(one post-filter event) but, joined against an empty catalog, produces NO
songplay row: the fact table has fewer rows than the post-filter event
count, and no row with null `song_id`/`artist_id` appears. -/
theorem unmatched_event_dropped :
    (filterNextSong [exampleLog]).length = 1
    ∧ songplays_table [exampleLog] [] = []
    ∧ (songplays_table [exampleLog] []).length < (filterNextSong [exampleLog]).length := by
  decide

/-- C1 amended: the join at etl.py:101 is an inner join, not a left join.
The fact-table row count equals the number of (post-filter event, catalog
song with matching title) pairs — an event with no title match contributes
no row (so the count can be less than the post-filter event count), and
every row that is produced has non-null `song_id` and `artist_id`. -/
theorem songplays_is_inner_join (logs : List LogRecord) (song_df : List SongsRow) :
    (songplays_table logs song_df).length
      = ((filterNextSong logs).map
          (fun e => (song_df.filter (fun s => s.title == e.song)).length)).sum
    ∧ (∀ r ∈ songplays_table logs song_df, r.song_id.isSome ∧ r.artist_id.isSome) := by
  constructor
  · rw [songplays_table, length_numberRows, length_joinPairs]
  · intro r hr
    obtain ⟨j, p, _, hr⟩ := mem_numberRows hr
    subst hr
    exact ⟨rfl, rfl⟩

/-- C1 amended witness: the inner-join row count and non-null foreign keys
evaluated on the worked example's event and catalog. -/
theorem songplays_is_inner_join_witness :
    (songplays_table [exampleLog] [exampleSong]).length
      = ((filterNextSong [exampleLog]).map
          (fun e => ([exampleSong].filter (fun s => s.title == e.song)).length)).sum
    ∧ ((songplayProj 0 exampleLog exampleSong).song_id.isSome
      ∧ (songplayProj 0 exampleLog exampleSong).artist_id.isSome) := by
  have h := songplays_is_inner_join [exampleLog] [exampleSong]
  exact ⟨h.1, h.2 (songplayProj 0 exampleLog exampleSong) (by decide)⟩

theorem filterNextSong_setArtist (a : String) (logs : List LogRecord) :
    filterNextSong (logs.map (setArtist a)) = (filterNextSong logs).map (setArtist a) := by
  rw [filterNextSong, filterNextSong, List.filter_map]
  rfl

theorem numberRows_append (i : Nat) (l1 l2 : List (LogRecord × SongsRow)) :
    numberRows i (l1 ++ l2) = numberRows i l1 ++ numberRows (i + l1.length) l2 := by
  induction l1 generalizing i with
  | nil => simp [numberRows]
  | cons p ps ih =>
    rw [List.cons_append, numberRows, numberRows, ih]
    have h : i + 1 + ps.length = i + (p :: ps).length := by
      rw [List.length_cons]
      omega
    rw [h, List.cons_append]

theorem numberRows_pair_setArtist (a : String) (e : LogRecord) (i : Nat)
    (sl : List SongsRow) :
    numberRows i (sl.map (fun s => (setArtist a e, s)))
      = numberRows i (sl.map (fun s => (e, s))) := by
  induction sl generalizing i with
  | nil => rfl
  | cons s ss ih =>
    rw [List.map_cons, List.map_cons, numberRows, numberRows, ih]
    rfl

theorem numberRows_joinPairs_setArtist (a : String) (sdf : List SongsRow) :
    ∀ (l : List LogRecord) (i : Nat),
      numberRows i (joinPairs (l.map (setArtist a)) sdf)
        = numberRows i (joinPairs l sdf) := by
  intro l
  induction l with
  | nil => intro i; rfl
  | cons e es ih =>
    intro i
    simp only [joinPairs, List.map_cons, List.flatMap_cons] at ih ⊢
    rw [numberRows_append, numberRows_append]
    congr 1
    · exact numberRows_pair_setArtist a e i _
    · simp only [List.length_map]
      exact ih _

/-- C10: the fact join matches on song title alone and ignores the event's
`artist` field: rewriting every event's artist changes nothing in the
songplays output; a post-filter event produces one row per same-titled
catalog song (k matches, k rows); and an event matching a single
same-titled song — regardless of that song's artist — is assigned that
song's `song_id` and `artist_id` (`songplayProj` carries
`some s.song_id` / `some s.artist_id`). -/
theorem join_matches_title_only :
    (∀ (a : String) (logs : List LogRecord) (song_df : List SongsRow),
      songplays_table (logs.map (setArtist a)) song_df = songplays_table logs song_df)
    ∧ (∀ (e : LogRecord) (song_df : List SongsRow), e.page = "NextSong" →
      (songplays_table [e] song_df).length
        = (song_df.filter (fun s => s.title == e.song)).length)
    ∧ (∀ (e : LogRecord) (s : SongsRow), e.page = "NextSong" → s.title = e.song →
      songplays_table [e] [s] = [songplayProj 0 e s]) := by
  refine ⟨fun a logs song_df => ?_, fun e song_df h => ?_, fun e s h ht => ?_⟩
  · rw [songplays_table, songplays_table, filterNextSong_setArtist,
        numberRows_joinPairs_setArtist]
  · have hf : filterNextSong [e] = [e] := by simp [filterNextSong, h]
    rw [songplays_table, length_numberRows, hf, length_joinPairs]
    simp
  · have hf : filterNextSong [e] = [e] := by simp [filterNextSong, h]
    have hs : List.filter (fun x => x.title == e.song) [s] = [s] := by simp [ht]
    rw [songplays_table, hf, joinPairs, List.flatMap_cons, hs]
    rfl

/-- C10 witness: the worked example's event against a catalog with two
same-titled songs yields two rows, and against only the other-artist
same-titled song is assigned that song's ids. -/
theorem join_matches_title_only_witness :
    (songplays_table [exampleLog] [exampleSong, exampleSong2]).length
      = ([exampleSong, exampleSong2].filter
          (fun s => s.title == exampleLog.song)).length
    ∧ songplays_table [exampleLog] [exampleSong2]
      = [songplayProj 0 exampleLog exampleSong2] :=
  ⟨join_matches_title_only.2.1 exampleLog [exampleSong, exampleSong2] (by decide),
   join_matches_title_only.2.2 exampleLog exampleSong2 (by decide) (by decide)⟩

theorem mem_filterNextSong {e : LogRecord} {logs : List LogRecord} :
    e ∈ filterNextSong logs ↔ e ∈ logs ∧ e.page = "NextSong" := by
  rw [filterNextSong, List.mem_filter]
  simp

theorem dedupBy_singleton {α β : Type} [DecidableEq β] (key : α → β) (x : α) :
    dedupBy key [x] = [x] := by
  rw [dedupBy, List.filter_nil, dedupBy]

/-- C7: the `page == 'NextSong'` filter (etl.py:67) runs before every
dedup and derivation, so every row of the users, time and songplays tables
derives from a log event whose `page` is `"NextSong"`; no other event
contributes a row to any of them. -/
theorem tables_derive_only_from_nextsong (logs : List LogRecord)
    (song_df : List SongsRow) :
    (∀ u ∈ users_table logs, ∃ e ∈ logs, e.page = "NextSong" ∧ u = userProj e)
    ∧ (∀ t ∈ time_table logs, ∃ e ∈ logs, e.page = "NextSong"
        ∧ t = timeProj (get_timestamp e.ts))
    ∧ (∀ r ∈ songplays_table logs song_df, ∃ e ∈ logs, e.page = "NextSong"
        ∧ ∃ s ∈ song_df, s.title = e.song ∧ ∃ j, r = songplayProj j e s) := by
  refine ⟨fun u hu => ?_, fun t ht => ?_, fun r hr => ?_⟩
  · have hm := mem_of_mem_dedupBy (fun u : UsersRow => u.userId) _ u hu
    obtain ⟨e, he, hue⟩ := List.mem_map.mp hm
    obtain ⟨he1, he2⟩ := mem_filterNextSong.mp he
    exact ⟨e, he1, he2, hue.symm⟩
  · have hm := mem_of_mem_dedupBy (fun t : TimeRow => t.start_time) _ t ht
    obtain ⟨e, he, hte⟩ := List.mem_map.mp hm
    obtain ⟨he1, he2⟩ := mem_filterNextSong.mp he
    exact ⟨e, he1, he2, hte.symm⟩
  · obtain ⟨j, p, hp, hr⟩ := mem_numberRows hr
    obtain ⟨h1, h2, h3⟩ := mem_joinPairs.mp hp
    obtain ⟨he1, he2⟩ := mem_filterNextSong.mp h1
    exact ⟨p.1, he1, he2, p.2, h2, h3, j, hr⟩

/-- C7 witness: the provenance facts instantiated on the worked example's
event, catalog and derived rows. -/
theorem tables_derive_only_from_nextsong_witness :
    (∃ e ∈ [exampleLog], e.page = "NextSong" ∧ userProj exampleLog = userProj e)
    ∧ (∃ e ∈ [exampleLog], e.page = "NextSong"
        ∧ timeProj (PyDatetime.fromtimestamp 1541990258) = timeProj (get_timestamp e.ts))
    ∧ (∃ e ∈ [exampleLog], e.page = "NextSong"
        ∧ ∃ s ∈ [exampleSong], s.title = e.song
        ∧ ∃ j, songplayProj 0 exampleLog exampleSong = songplayProj j e s) := by
  have h := tables_derive_only_from_nextsong [exampleLog] [exampleSong]
  refine ⟨h.1 (userProj exampleLog) ?_,
          h.2.1 (timeProj (PyDatetime.fromtimestamp 1541990258)) ?_,
          h.2.2 (songplayProj 0 exampleLog exampleSong) ?_⟩
  · have hu : users_table [exampleLog] = [userProj exampleLog] := by
      rw [users_table,
          show (filterNextSong [exampleLog]).map userProj = [userProj exampleLog] from rfl,
          dedupBy_singleton]
    rw [hu]
    exact List.mem_singleton.mpr rfl
  · have htt : time_table [exampleLog] = [timeProj (get_timestamp exampleLog.ts)] := by
      rw [time_table,
          show (filterNextSong [exampleLog]).map (fun r => timeProj (get_timestamp r.ts))
            = [timeProj (get_timestamp exampleLog.ts)] from rfl,
          dedupBy_singleton]
    rw [htt]
    exact List.mem_singleton.mpr rfl
  · show songplayProj 0 exampleLog exampleSong ∈ [songplayProj 0 exampleLog exampleSong]
    exact List.mem_singleton.mpr rfl

theorem songsPartitionDir_eq (r : SongsRow) :
    songsPartitionDir r = "_year=" ++ toString r.year ++ "/_artist_id=" ++ r.artist_id := by
  rw [songsPartitionDir, partitionDir, songs_partition_cols]
  show ("_year=" ++ toString r.year) ++ "/" ++ ("_artist_id=" ++ r.artist_id) = _
  rw [String.append_assoc, ← String.append_assoc "/" "_artist_id=", ← String.append_assoc]
  simp

/-- C4 counterexample: the worked example's songs row lands in the
directory segment `_year=0/_artist_id=AR5KOSW1187FB35FF4`, which is not the
claimed `year=0/artist_id=AR5KOSW1187FB35FF4`. -/
theorem songs_partition_dir_not_year :
    songsPartitionDir exampleSong = "_year=0/_artist_id=AR5KOSW1187FB35FF4"
    ∧ songsPartitionDir exampleSong ≠ "year=0/artist_id=AR5KOSW1187FB35FF4" := by
  refine ⟨rfl, ?_⟩
  decide

/-- C4 amended: the songs write partitions by the underscore-prefixed
copies `_year` and `_artist_id` (etl.py:38-39), whose values are exactly
the row's `year` and `artist_id`, so each distinct `(year, artist_id)` pair
lands in its own directory segment — but the segment is named
`_year=<value>/_artist_id=<value>`, not `year=<value>/artist_id=<value>`;
the artists table is written unpartitioned (etl.py:46). -/
theorem songs_partitioned_by_underscore_copies (r r2 : SongsRow) :
    songsPartitionKey r = (r.year, r.artist_id)
    ∧ songsPartitionDir r = "_year=" ++ toString r.year ++ "/_artist_id=" ++ r.artist_id
    ∧ (songsPartitionKey r = songsPartitionKey r2
        ↔ r.year = r2.year ∧ r.artist_id = r2.artist_id)
    ∧ songs_partition_cols = ["_year", "_artist_id"]
    ∧ artists_partition_cols = [] := by
  refine ⟨rfl, songsPartitionDir_eq r, ?_, rfl, rfl⟩
  rw [songsPartitionKey, songsPartitionKey, Prod.mk.injEq]

/-- C4 witness: the partition key, directory name and key-injectivity
facts instantiated at the two concrete catalog songs. -/
theorem songs_partitioned_by_underscore_copies_witness :
    songsPartitionKey exampleSong = (exampleSong.year, exampleSong.artist_id)
    ∧ songsPartitionDir exampleSong
      = "_year=" ++ toString exampleSong.year ++ "/_artist_id=" ++ exampleSong.artist_id
    ∧ (songsPartitionKey exampleSong = songsPartitionKey exampleSong2
        ↔ exampleSong.year = exampleSong2.year
          ∧ exampleSong.artist_id = exampleSong2.artist_id)
    ∧ songs_partition_cols = ["_year", "_artist_id"]
    ∧ artists_partition_cols = [] :=
  songs_partitioned_by_underscore_copies exampleSong exampleSong2

theorem readSongs_run_pipeline (catalog : List SongRecord) (logs : List LogRecord)
    (store : Store) :
    readSongs (run_pipeline catalog logs store) = songs_table catalog := by
  simp [run_pipeline, readSongs, writeParquet]

/-- C8: every write passes mode `'overwrite'`, so a write fully replaces
any prior output at the same destination and never appends; running the
full pipeline twice on identical input therefore leaves exactly the store
a single run leaves (identical dimension tables and, in this model with
index-based surrogate keys, an identical fact table too). -/
theorem pipeline_overwrite_idempotent :
    (∀ (catalog : List SongRecord) (logs : List LogRecord) (store : Store),
      run_pipeline catalog logs (run_pipeline catalog logs store)
        = run_pipeline catalog logs store)
    ∧ (∀ (store : Store) (path : String) (t : Table),
      writeParquet store path t path = some t) := by
  constructor
  · intro catalog logs store
    funext q
    by_cases h1 : q = "songplays" <;> by_cases h2 : q = "time" <;>
      by_cases h3 : q = "users" <;> by_cases h4 : q = "artists" <;>
      by_cases h5 : q = "songs" <;>
      simp [run_pipeline, writeParquet, readSongs, h1, h2, h3, h4, h5]
  · intro store path t
    simp [writeParquet]
